import Mathlib

/-!
Verification of the libStorageMgmt python client binding
(`src/python_binding/lsm/_client.py`) and the IBM V7000 plugin
(`src/plugin/v7k/ibmv7k.py`) against their natural-language specification.

The client is embedded shallowly: each RPC stub method becomes a Lean
function from an explicit wire oracle (the plugin side of the socket),
the client object and the oracle state to the next oracle state, the
list of observable events (RPC requests written to the socket, socket
closes) and an `Except` outcome mirroring python exceptions.
Support modules of the repository that are not under `src/`
(`_common.py`, `_data.py`, `_transport.py`, the simulator plugin) are
modelled from the spec where a claim depends on them; every such
definition carries a doc comment starting with `Modelled from the spec:`.
-/

namespace Lsm

/-- Modelled from the spec: the local typed error taxonomy of section 7
(`ErrorNumber` lives in `_common.py`, which is not under `src/`); the
spec requires the kinds to be distinct, which distinct constructors give. -/
inductive ErrorNumber where
  | DAEMON_NOT_RUNNING
  | PLUGIN_NOT_EXIST
  | TRANSPORT_COMMUNICATION
  | UNSUPPORTED_SEARCH_KEY
  | INVALID_ARGUMENT
  | PLUGIN_ERROR
  | PLUGIN_BUG
  | NOT_FOUND_JOB
  | NOT_IMPLEMENTED
deriving DecidableEq, Repr

/-- An `LsmError` exception: a typed error number plus a human message. -/
structure LsmError where
  errno : ErrorNumber
  msg : String
deriving DecidableEq, Repr

/-- A python exception as visible to the caller of the client: either a
typed `LsmError` or one of the builtin exception classes the source can
raise (tuple-unpacking `ValueError` in `Client.__init__`, and
`AttributeError` when a method dereferences `self._tp` after `close`
has set it to `None`). -/
inductive PyExc where
  | lsmError (e : LsmError)
  | valueError (msg : String)
  | attributeError (msg : String)
deriving DecidableEq, Repr

/-- A wire value of the RPC protocol: the JSON-ish payloads exchanged
with the plugin.  Storage objects (Volume, Pool, FileSystem, ...) are
kept abstract as a kind tag plus attribute strings, since attribute
translation is out of the scope of the spec. -/
inductive Value where
  | null
  | str (s : String)
  | int (n : Int)
  | bool (b : Bool)
  | obj (kind : String) (attrs : List (String × String))
  | list (vs : List Value)

/-- Whether a wire value is python `None`. -/
def Value.isNull : Value → Bool
  | .null => true
  | _ => false

/-- Render an optional string argument as a wire value (`None` or str). -/
def optStrV : Option String → Value
  | none => Value.null
  | some s => Value.str s

/-- The dual-result contract on a wire value: the value is a pair
(encoded as a two-element list, as tuples travel on the wire) in which
exactly one of the two halves is non-`None`. -/
def dualResultOk : Value → Bool
  | .list [j, r] => j.isNull != r.isNull
  | _ => false

/-! ## Operating-system model

`_client.py` touches the OS through `os.environ`, `os.path.exists`,
`os.walk`, `os.path.join` and the transport `get_socket`.  These are
gathered in one oracle structure; `walkFiles d` lists the socket file
names found under directory `d` (plugin socket directories are flat,
so the recursive walk degenerates to one listing). -/

structure OS where
  /-- The value of the environment variable `LSM_UDS_PATH`, if set. -/
  env_LSM_UDS_PATH : Option String
  /-- Result of `os.path.exists` on a path. -/
  pathExists : String → Bool
  /-- File names yielded by `os.walk` on a directory. -/
  walkFiles : String → List String
  /-- Whether `_TransPort.get_socket` succeeds on a socket path. -/
  socketOk : String → Bool
  /-- The `(description, version)` pair the plugin behind a given
  socket path reports to a `plugin_info` RPC. -/
  pluginInfoAt : String → String × String

/-- Modelled from the spec: the well-known default socket base
directory (`UDS_PATH` lives in `_common.py`, not under `src/`; the spec
fixes only that the default is a single well-known location). -/
def UDS_PATH : String := "/var/run/lsm/ipc"

/-- `os.path.join a b` for a directory `a` and a relative name `b`. -/
def pathJoin (a b : String) : String := a ++ "/" ++ b

/-! ## Client state, transport and the RPC sheet -/

/-- The transport owns one connected socket; only its endpoint matters
to the client-side contracts. -/
structure TransPort where
  path : String
deriving DecidableEq, Repr

/-- The state a `Client` object carries between calls: the resolved
socket path and `self._tp`, which `close` sets to `None`. -/
structure Client where
  plugin_path : String
  tp : Option TransPort
deriving DecidableEq, Repr

/-- Observable socket-level events of a client call: an RPC request
written to the wire, or a socket being closed. -/
inductive Event where
  | rpcSent (method : String) (args : List (String × Value))
  | sockClosed (path : String)

/-- The plugin side of the socket as a stateful oracle: given a method
name, its named arguments and the plugin state, produce the next state
and either a result value or a wire-reported `LsmError`. -/
structure StWire (σ : Type) where
  resp : String → List (String × Value) → σ → σ × Except LsmError Value

/-- The shared body shape `return self._tp.rpc(name, _del_self(locals()))`
of every stub method: dereference `self._tp` (an `AttributeError` if the
client was closed), send the one request, and hand back the response,
re-raising a wire-reported error as an `LsmError`.  The `_del_self`
stripping is pure bookkeeping: the argument lists below are built
without `self` directly. -/
def Client.rpcCall {σ : Type} (w : StWire σ) (c : Client) (method : String)
    (args : List (String × Value)) (s : σ) :
    σ × List Event × Except PyExc Value :=
  match c.tp with
  | none => (s, [], Except.error (PyExc.attributeError
      "NoneType object has no attribute rpc"))
  | some _ =>
    match w.resp method args s with
    | (s2, Except.ok v) => (s2, [Event.rpcSent method args], Except.ok v)
    | (s2, Except.error e) =>
        (s2, [Event.rpcSent method args], Except.error (PyExc.lsmError e))

/-! ## Plugin locator (`_client.py` lines 91-155) -/

/-- `Client._plugin_uds_path`: the socket base directory, the
environment override `LSM_UDS_PATH` if present, else the default. -/
def Client._plugin_uds_path (os : OS) : String :=
  match os.env_LSM_UDS_PATH with
  | some p => p
  | none => UDS_PATH

/-- `Client._check_daemon_exists`: if the base directory exists, walk
it and try to open a socket to each file, returning true on the first
that connects; false when none connects or the directory is absent. -/
def Client._check_daemon_exists (os : OS) : Bool :=
  let uds_path := Client._plugin_uds_path os
  if os.pathExists uds_path then
    (os.walkFiles uds_path).any (fun f => os.socketOk (pathJoin uds_path f))
  else
    false

/-- The plus sign. -/
def plusChar : Char := Char.ofNat 43

/-- Python `str.split` with a one-character separator, on the character
list of the string: splitting never drops characters and yields one
part more than the number of separators. -/
def pySplitChar (sep : Char) : List Char → List (List Char)
  | [] => [[]]
  | c :: rest =>
    match pySplitChar sep rest with
    | [] => [[]]
    | g :: gs => if c = sep then [] :: g :: gs else (c :: g) :: gs

/-- The scheme-to-family step of `Client.__init__` (lines 136-139):
when the parsed scheme contains a plus sign it is split on plus and
destructured into exactly two parts, keeping the first; a scheme whose
split has any other number of parts makes the tuple assignment raise a
`ValueError`. -/
def schemeFamily (scheme : String) : Except PyExc String :=
  if scheme.toList.contains plusChar then
    match (pySplitChar plusChar scheme.toList).map (fun l => String.mk l) with
    | [plug, _proto] => Except.ok plug
    | _ => Except.error (PyExc.valueError "too many values to unpack")
  else
    Except.ok scheme

/-- `Client.__init__` (lines 127-155): resolve the socket path as
base-dir joined with the scheme family; if it exists, connect (a
connect failure here is a transport error) and run `__start`, which
issues the `plugin_register` RPC; if it does not exist, disambiguate
through `_check_daemon_exists` between a missing plugin and a daemon
that is not running.  URI parsing itself is out of scope for the spec,
so the constructor takes the parsed scheme alongside the raw URI. -/
def Client.init {σ : Type} (w : StWire σ) (os : OS) (uri : String)
    (scheme : String) (plain_text_password : Option String)
    (timeout_ms : Int) (flags : Int) (s : σ) :
    σ × List Event × Except PyExc Client :=
  match schemeFamily scheme with
  | Except.error e => (s, [], Except.error e)
  | Except.ok fam =>
    let plugin_path := pathJoin (Client._plugin_uds_path os) fam
    if os.pathExists plugin_path then
      if os.socketOk plugin_path then
        let args := [("uri", Value.str uri),
                     ("password", optStrV plain_text_password),
                     ("timeout", Value.int timeout_ms),
                     ("flags", Value.int flags)]
        match w.resp "plugin_register" args s with
        | (s2, Except.ok _) =>
            (s2, [Event.rpcSent "plugin_register" args],
             Except.ok { plugin_path := plugin_path,
                         tp := some { path := plugin_path } })
        | (s2, Except.error e) =>
            (s2, [Event.rpcSent "plugin_register" args],
             Except.error (PyExc.lsmError e))
      else
        (s, [], Except.error (PyExc.lsmError
          { errno := ErrorNumber.TRANSPORT_COMMUNICATION,
            msg := "Unable to connect to lsmd" }))
    else
      if Client._check_daemon_exists os then
        (s, [], Except.error (PyExc.lsmError
          { errno := ErrorNumber.PLUGIN_NOT_EXIST,
            msg := "Plug-in " ++ plugin_path ++ " not found!" }))
      else
        (s, [], Except.error (PyExc.lsmError
          { errno := ErrorNumber.DAEMON_NOT_RUNNING,
            msg := "The libStorageMgmt daemon is not running" }))

/-! ## pool_create (`_client.py` lines 326-336) -/

/-- `Client.pool_create`: rejects a non-positive `size_bytes` locally
with `INVALID_ARGUMENT` before any RPC, otherwise dispatches the
`pool_create` request. -/
def Client.pool_create {σ : Type} (w : StWire σ) (c : Client)
    (system : Value) (pool_name : String) (size_bytes : Int)
    (raid_type : Int) (member_type : Int) (flags : Int) (s : σ) :
    σ × List Event × Except PyExc Value :=
  if size_bytes ≤ 0 then
    (s, [], Except.error (PyExc.lsmError
      { errno := ErrorNumber.INVALID_ARGUMENT,
        msg := "size_bytes should larger than 0" }))
  else
    Client.rpcCall w c "pool_create"
      [("system", system), ("pool_name", Value.str pool_name),
       ("size_bytes", Value.int size_bytes),
       ("raid_type", Value.int raid_type),
       ("member_type", Value.int member_type),
       ("flags", Value.int flags)] s

/-- C10: pool_create raises INVALID_ARGUMENT locally, before any RPC is
dispatched, whenever size_bytes is less than or equal to zero; for
positive size_bytes the call proceeds to the wire (exactly one
pool_create request is written). -/
theorem C10_pool_create_size_check {σ : Type} (w : StWire σ) (c : Client)
    (tp : TransPort) (system : Value) (pool_name : String)
    (size_bytes raid_type member_type flags : Int) (s : σ)
    (hopen : c.tp = some tp) :
    (size_bytes ≤ 0 →
      Client.pool_create w c system pool_name size_bytes raid_type
          member_type flags s =
        (s, [], Except.error (PyExc.lsmError
          { errno := ErrorNumber.INVALID_ARGUMENT,
            msg := "size_bytes should larger than 0" }))) ∧
    (0 < size_bytes →
      (Client.pool_create w c system pool_name size_bytes raid_type
          member_type flags s).2.1 =
        [Event.rpcSent "pool_create"
          [("system", system), ("pool_name", Value.str pool_name),
           ("size_bytes", Value.int size_bytes),
           ("raid_type", Value.int raid_type),
           ("member_type", Value.int member_type),
           ("flags", Value.int flags)]]) := by
  constructor
  · intro hle
    simp [Client.pool_create, hle]
  · intro hpos
    have hnle : ¬ size_bytes ≤ 0 := by omega
    simp only [Client.pool_create, hnle, if_false]
    simp only [Client.rpcCall, hopen]
    rcases h : w.resp "pool_create"
      [("system", system), ("pool_name", Value.str pool_name),
       ("size_bytes", Value.int size_bytes),
       ("raid_type", Value.int raid_type),
       ("member_type", Value.int member_type),
       ("flags", Value.int flags)] s with ⟨s2, r⟩
    cases r <;> simp

/-- Witness for C10 at a concrete client and wire: size 0 is rejected
locally and size 1 reaches the wire. -/
theorem C10_pool_create_size_check_witness :
    let c : Client := { plugin_path := "/var/run/lsm/ipc/sim",
                        tp := some { path := "/var/run/lsm/ipc/sim" } }
    let w : StWire Unit := { resp := fun _ _ s => (s, Except.ok Value.null) }
    (Client.pool_create w c Value.null "p" 0 0 0 0 () =
      ((), [], Except.error (PyExc.lsmError
        { errno := ErrorNumber.INVALID_ARGUMENT,
          msg := "size_bytes should larger than 0" }))) ∧
    (Client.pool_create w c Value.null "p" 1 0 0 0 ()).2.1 =
      [Event.rpcSent "pool_create"
        [("system", Value.null), ("pool_name", Value.str "p"),
         ("size_bytes", Value.int 1),
         ("raid_type", Value.int 0),
         ("member_type", Value.int 0),
         ("flags", Value.int 0)]] := by
  refine ⟨?_, ?_⟩
  · exact (C10_pool_create_size_check _ _ ⟨"/var/run/lsm/ipc/sim"⟩
      Value.null "p" 0 0 0 0 () rfl).1 (by decide)
  · exact (C10_pool_create_size_check _ _ ⟨"/var/run/lsm/ipc/sim"⟩
      Value.null "p" 1 0 0 0 () rfl).2 (by decide)

/-! ## Search-constrained listing operations
(`_check_search_key` lines 44-48; `pools` 292-299, `volumes` 527-533,
`disks` 679-685, `access_groups` 718-724, `fs` 850-856, `exports`
1086-1092) -/

/-- `_check_search_key` (lines 44-48): a python-truthy search key that
is not a member of the supported-key set raises
`UNSUPPORTED_SEARCH_KEY`; a falsy key (absent, or the empty string)
passes the check without membership testing. -/
def _check_search_key (search_key : Option String)
    (supported_keys : List String) : Except LsmError Unit :=
  match search_key with
  | none => Except.ok ()
  | some s =>
    if s ≠ "" ∧ s ∉ supported_keys then
      Except.error { errno := ErrorNumber.UNSUPPORTED_SEARCH_KEY,
                     msg := "Unsupported search_key: " ++ s }
    else
      Except.ok ()

/-- Modelled from the spec: the fixed supported-search-key set of Pool
(`_data.py` is not under `src/`; the spec fixes only that each entity
carries one fixed set of field-name keys). -/
def Pool.SUPPORTED_SEARCH_KEYS : List String := ["id", "system_id"]

/-- Modelled from the spec: the fixed supported-search-key set of
Volume. -/
def Volume.SUPPORTED_SEARCH_KEYS : List String :=
  ["id", "system_id", "pool_id"]

/-- Modelled from the spec: the fixed supported-search-key set of
Disk. -/
def Disk.SUPPORTED_SEARCH_KEYS : List String := ["id", "system_id"]

/-- Modelled from the spec: the fixed supported-search-key set of
AccessGroup. -/
def AccessGroup.SUPPORTED_SEARCH_KEYS : List String := ["id", "system_id"]

/-- Modelled from the spec: the fixed supported-search-key set of
FileSystem. -/
def FileSystem.SUPPORTED_SEARCH_KEYS : List String :=
  ["id", "system_id", "pool_id"]

/-- Modelled from the spec: the fixed supported-search-key set of
NfsExport. -/
def NfsExport.SUPPORTED_SEARCH_KEYS : List String := ["id", "fs_id"]

/-- The argument list every search-constrained listing method passes to
the wire. -/
def searchArgs (search_key search_value : Option String) (flags : Int) :
    List (String × Value) :=
  [("search_key", optStrV search_key),
   ("search_value", optStrV search_value),
   ("flags", Value.int flags)]

/-- `Client.pools`: check the search key against the Pool set, then
dispatch the `pools` request. -/
def Client.pools {σ : Type} (w : StWire σ) (c : Client)
    (search_key search_value : Option String) (flags : Int) (s : σ) :
    σ × List Event × Except PyExc Value :=
  match _check_search_key search_key Pool.SUPPORTED_SEARCH_KEYS with
  | Except.error e => (s, [], Except.error (PyExc.lsmError e))
  | Except.ok _ =>
      Client.rpcCall w c "pools" (searchArgs search_key search_value flags) s

/-- `Client.volumes`: check the search key against the Volume set, then
dispatch the `volumes` request. -/
def Client.volumes {σ : Type} (w : StWire σ) (c : Client)
    (search_key search_value : Option String) (flags : Int) (s : σ) :
    σ × List Event × Except PyExc Value :=
  match _check_search_key search_key Volume.SUPPORTED_SEARCH_KEYS with
  | Except.error e => (s, [], Except.error (PyExc.lsmError e))
  | Except.ok _ =>
      Client.rpcCall w c "volumes" (searchArgs search_key search_value flags) s

/-- `Client.disks`: check the search key against the Disk set, then
dispatch the `disks` request. -/
def Client.disks {σ : Type} (w : StWire σ) (c : Client)
    (search_key search_value : Option String) (flags : Int) (s : σ) :
    σ × List Event × Except PyExc Value :=
  match _check_search_key search_key Disk.SUPPORTED_SEARCH_KEYS with
  | Except.error e => (s, [], Except.error (PyExc.lsmError e))
  | Except.ok _ =>
      Client.rpcCall w c "disks" (searchArgs search_key search_value flags) s

/-- `Client.access_groups`: check the search key against the AccessGroup
set, then dispatch the `access_groups` request. -/
def Client.access_groups {σ : Type} (w : StWire σ) (c : Client)
    (search_key search_value : Option String) (flags : Int) (s : σ) :
    σ × List Event × Except PyExc Value :=
  match _check_search_key search_key AccessGroup.SUPPORTED_SEARCH_KEYS with
  | Except.error e => (s, [], Except.error (PyExc.lsmError e))
  | Except.ok _ =>
      Client.rpcCall w c "access_groups"
        (searchArgs search_key search_value flags) s

/-- `Client.fs`: check the search key against the FileSystem set, then
dispatch the `fs` request. -/
def Client.fs {σ : Type} (w : StWire σ) (c : Client)
    (search_key search_value : Option String) (flags : Int) (s : σ) :
    σ × List Event × Except PyExc Value :=
  match _check_search_key search_key FileSystem.SUPPORTED_SEARCH_KEYS with
  | Except.error e => (s, [], Except.error (PyExc.lsmError e))
  | Except.ok _ =>
      Client.rpcCall w c "fs" (searchArgs search_key search_value flags) s

/-- `Client.exports`: check the search key against the NfsExport set,
then dispatch the `exports` request. -/
def Client.exports {σ : Type} (w : StWire σ) (c : Client)
    (search_key search_value : Option String) (flags : Int) (s : σ) :
    σ × List Event × Except PyExc Value :=
  match _check_search_key search_key NfsExport.SUPPORTED_SEARCH_KEYS with
  | Except.error e => (s, [], Except.error (PyExc.lsmError e))
  | Except.ok _ =>
      Client.rpcCall w c "exports" (searchArgs search_key search_value flags) s

/-- A fixed open client used by concrete counterexamples and witnesses. -/
def simClient : Client :=
  { plugin_path := "/var/run/lsm/ipc/sim",
    tp := some { path := "/var/run/lsm/ipc/sim" } }

/-- A fixed stateless wire that answers every request with `None`. -/
def okWire : StWire Unit :=
  { resp := fun _ _ s => (s, Except.ok Value.null) }

/-- C3 counterexample: the empty string is not in the Pool supported-key
set, yet `pools` with `search_key = ""` does not raise
`UNSUPPORTED_SEARCH_KEY` locally — the request is dispatched to the
wire, because `_check_search_key` only tests python-truthy keys. -/
theorem C3_counterexample :
    ("" ∉ Pool.SUPPORTED_SEARCH_KEYS) ∧
    Lsm.Client.pools okWire simClient (some "") none 0 () =
      ((), [Event.rpcSent "pools" (searchArgs (some "") none 0)],
       Except.ok Value.null) := by
  constructor
  · decide
  · rfl

/-- C3 (amended): for every listing operation (pools, volumes, disks,
access_groups, fs, exports) and every non-empty search_key not in that
supported-key set of the entity, the call raises UNSUPPORTED_SEARCH_KEY
locally, before any RPC is dispatched, so no socket traffic occurs; a
python-falsy search_key (None or the empty string) bypasses the
check. -/
theorem C3_search_key_checked_locally {σ : Type} (w : StWire σ) (c : Client)
    (k : String) (search_value : Option String) (flags : Int) (s : σ)
    (hk : k ≠ "") :
    (k ∉ Pool.SUPPORTED_SEARCH_KEYS →
      Client.pools w c (some k) search_value flags s =
        (s, [], Except.error (PyExc.lsmError
          { errno := ErrorNumber.UNSUPPORTED_SEARCH_KEY,
            msg := "Unsupported search_key: " ++ k }))) ∧
    (k ∉ Volume.SUPPORTED_SEARCH_KEYS →
      Client.volumes w c (some k) search_value flags s =
        (s, [], Except.error (PyExc.lsmError
          { errno := ErrorNumber.UNSUPPORTED_SEARCH_KEY,
            msg := "Unsupported search_key: " ++ k }))) ∧
    (k ∉ Disk.SUPPORTED_SEARCH_KEYS →
      Client.disks w c (some k) search_value flags s =
        (s, [], Except.error (PyExc.lsmError
          { errno := ErrorNumber.UNSUPPORTED_SEARCH_KEY,
            msg := "Unsupported search_key: " ++ k }))) ∧
    (k ∉ AccessGroup.SUPPORTED_SEARCH_KEYS →
      Client.access_groups w c (some k) search_value flags s =
        (s, [], Except.error (PyExc.lsmError
          { errno := ErrorNumber.UNSUPPORTED_SEARCH_KEY,
            msg := "Unsupported search_key: " ++ k }))) ∧
    (k ∉ FileSystem.SUPPORTED_SEARCH_KEYS →
      Client.fs w c (some k) search_value flags s =
        (s, [], Except.error (PyExc.lsmError
          { errno := ErrorNumber.UNSUPPORTED_SEARCH_KEY,
            msg := "Unsupported search_key: " ++ k }))) ∧
    (k ∉ NfsExport.SUPPORTED_SEARCH_KEYS →
      Client.exports w c (some k) search_value flags s =
        (s, [], Except.error (PyExc.lsmError
          { errno := ErrorNumber.UNSUPPORTED_SEARCH_KEY,
            msg := "Unsupported search_key: " ++ k }))) := by
  refine ⟨fun hm => ?_, fun hm => ?_, fun hm => ?_, fun hm => ?_,
          fun hm => ?_, fun hm => ?_⟩ <;>
    simp [Client.pools, Client.volumes, Client.disks, Client.access_groups,
          Client.fs, Client.exports, _check_search_key, hk, hm]

/-- Witness for C3 at the concrete unsupported key `bogus`: all six
listing operations reject it locally on a live client with no wire
traffic. -/
theorem C3_search_key_checked_locally_witness :
    Lsm.Client.pools okWire simClient (some "bogus") none 0 () =
      ((), [], Except.error (PyExc.lsmError
        { errno := ErrorNumber.UNSUPPORTED_SEARCH_KEY,
          msg := "Unsupported search_key: " ++ "bogus" })) ∧
    Lsm.Client.exports okWire simClient (some "bogus") none 0 () =
      ((), [], Except.error (PyExc.lsmError
        { errno := ErrorNumber.UNSUPPORTED_SEARCH_KEY,
          msg := "Unsupported search_key: " ++ "bogus" })) := by
  have h := C3_search_key_checked_locally okWire simClient "bogus" none 0 ()
    (by decide)
  exact ⟨h.1 (by decide), h.2.2.2.2.2 (by decide)⟩

/-! ## Plugin discovery for enumeration (`_client.py` lines 178-202) -/

/-- One line of `available_plugins` output: description, separator,
version of the plugin behind socket file `f`. -/
def pluginLine (os : OS) (uds_path field_sep f : String) : String :=
  (os.pluginInfoAt (pathJoin uds_path f)).1 ++ field_sep ++
    (os.pluginInfoAt (pathJoin uds_path f)).2

/-- The accumulation loop of `available_plugins`: for each socket file,
open a transport (a connect failure raises out of the whole call),
issue `plugin_info`, and append the formatted line. -/
def availLoop (os : OS) (uds_path field_sep : String) :
    List String → List String → Except LsmError (List String)
  | [], rc => Except.ok rc
  | f :: rest, rc =>
    if os.socketOk (pathJoin uds_path f) then
      availLoop os uds_path field_sep rest
        (rc ++ [pluginLine os uds_path field_sep f])
    else
      Except.error { errno := ErrorNumber.TRANSPORT_COMMUNICATION,
                     msg := "Unable to connect to lsmd" }

/-- `Client.available_plugins`: fail with `DAEMON_NOT_RUNNING` unless
`_check_daemon_exists` sees a live socket, then walk every socket file
under the base directory and collect one description-version line per
socket. -/
def Client.available_plugins (os : OS) (field_sep : String) :
    Except LsmError (List String) :=
  if Client._check_daemon_exists os then
    let uds_path := Client._plugin_uds_path os
    availLoop os uds_path field_sep (os.walkFiles uds_path) []
  else
    Except.error { errno := ErrorNumber.DAEMON_NOT_RUNNING,
                   msg := "The libStorageMgmt daemon is not running" }

/-- `_check_daemon_exists` unfolded: the base directory exists and some
walked socket file accepts a connection. -/
theorem check_daemon_exists_eq (os : OS) :
    Client._check_daemon_exists os =
      (os.pathExists (Client._plugin_uds_path os) &&
        (os.walkFiles (Client._plugin_uds_path os)).any
          (fun f => os.socketOk
            (pathJoin (Client._plugin_uds_path os) f))) := by
  simp only [Client._check_daemon_exists]
  cases h : os.pathExists (Client._plugin_uds_path os) <;> simp [h]

/-- The accumulation loop on an all-live file list yields the
accumulator followed by one line per file. -/
theorem availLoop_all_live (os : OS) (uds_path field_sep : String)
    (files rc : List String)
    (hlive : ∀ f ∈ files, os.socketOk (pathJoin uds_path f) = true) :
    availLoop os uds_path field_sep files rc =
      Except.ok (rc ++ files.map (pluginLine os uds_path field_sep)) := by
  induction files generalizing rc with
  | nil => simp [availLoop]
  | cons f rest ih =>
    have hf : os.socketOk (pathJoin uds_path f) = true :=
      hlive f (List.mem_cons_self f rest)
    have hrest : ∀ g ∈ rest, os.socketOk (pathJoin uds_path g) = true :=
      fun g hg => hlive g (List.mem_cons_of_mem f hg)
    simp [availLoop, hf, ih _ hrest]

/-- C4: available_plugins with zero live sockets under an existing base
directory fails with DAEMON_NOT_RUNNING; with N live sockets (every
walked socket file accepts a connection, and there is at least one) it
returns exactly N description-version lines, one per socket, in the
walk order. -/
theorem C4_available_plugins (os : OS) (field_sep : String)
    (hbase : os.pathExists (Client._plugin_uds_path os) = true) :
    ((∀ f ∈ os.walkFiles (Client._plugin_uds_path os),
        os.socketOk (pathJoin (Client._plugin_uds_path os) f) = false) →
      Client.available_plugins os field_sep =
        Except.error { errno := ErrorNumber.DAEMON_NOT_RUNNING,
                       msg := "The libStorageMgmt daemon is not running" }) ∧
    ((∀ f ∈ os.walkFiles (Client._plugin_uds_path os),
        os.socketOk (pathJoin (Client._plugin_uds_path os) f) = true) →
      os.walkFiles (Client._plugin_uds_path os) ≠ [] →
      Client.available_plugins os field_sep =
        Except.ok ((os.walkFiles (Client._plugin_uds_path os)).map
          (pluginLine os (Client._plugin_uds_path os) field_sep)) ∧
      ∀ rc, Client.available_plugins os field_sep = Except.ok rc →
        rc.length =
          (os.walkFiles (Client._plugin_uds_path os)).length) := by
  constructor
  · intro hdead
    have hchk : Client._check_daemon_exists os = false := by
      rw [check_daemon_exists_eq]
      simp only [Bool.and_eq_false_iff, List.any_eq_false]
      exact Or.inr (fun f hf => by simp [hdead f hf])
    simp [Client.available_plugins, hchk]
  · intro hlive hne
    have hsome : (os.walkFiles (Client._plugin_uds_path os)).any
        (fun f => os.socketOk
          (pathJoin (Client._plugin_uds_path os) f)) = true := by
      rcases List.exists_mem_of_ne_nil _ hne with ⟨f, hf⟩
      exact List.any_eq_true.mpr ⟨f, hf, hlive f hf⟩
    have hchk : Client._check_daemon_exists os = true := by
      rw [check_daemon_exists_eq, hbase, hsome]
      rfl
    have hres : Client.available_plugins os field_sep =
        Except.ok ((os.walkFiles (Client._plugin_uds_path os)).map
          (pluginLine os (Client._plugin_uds_path os) field_sep)) := by
      simp [Client.available_plugins, hchk,
            availLoop_all_live os _ field_sep _ [] hlive]
    refine ⟨hres, fun rc hrc => ?_⟩
    rw [hres] at hrc
    cases hrc
    simp

/-- Witness for C4: a base directory holding two live sockets yields
exactly the two description-version lines, and the same directory with
both sockets dead yields DAEMON_NOT_RUNNING. -/
theorem C4_available_plugins_witness :
    (Client.available_plugins
      { env_LSM_UDS_PATH := none,
        pathExists := fun _ => true,
        walkFiles := fun _ => ["sim", "smispy"],
        socketOk := fun _ => true,
        pluginInfoAt := fun p =>
          if p = "/var/run/lsm/ipc/sim" then ("simulator", "1.0")
          else ("smispy", "2.0") } ":" =
      Except.ok ["simulator:1.0", "smispy:2.0"]) ∧
    (Client.available_plugins
      { env_LSM_UDS_PATH := none,
        pathExists := fun _ => true,
        walkFiles := fun _ => ["sim", "smispy"],
        socketOk := fun _ => false,
        pluginInfoAt := fun _ => ("x", "y") } ":" =
      Except.error { errno := ErrorNumber.DAEMON_NOT_RUNNING,
                     msg := "The libStorageMgmt daemon is not running" }) := by
  constructor
  · have h := (C4_available_plugins
      { env_LSM_UDS_PATH := none,
        pathExists := fun _ => true,
        walkFiles := fun _ => ["sim", "smispy"],
        socketOk := fun _ => true,
        pluginInfoAt := fun p =>
          if p = "/var/run/lsm/ipc/sim" then ("simulator", "1.0")
          else ("smispy", "2.0") } ":" rfl).2
      (by intro f _; rfl) (by simp)
    rw [h.1]
    rfl
  · exact (C4_available_plugins _ ":" rfl).1 (fun f _ => rfl)

/-- C2: when the resolved socket path base-dir/scheme does not exist,
the constructor scans the base directory: if at least one other socket
accepts a connection it raises PLUGIN_NOT_EXIST (the plugin-not-found
kind), and if no socket responds it raises DAEMON_NOT_RUNNING; the
scan is exactly the existence of a live socket among the walked files,
and the two error kinds are distinct. -/
theorem C2_locator_disambiguation {σ : Type} (w : StWire σ) (os : OS)
    (uri scheme fam : String) (pw : Option String)
    (timeout_ms flags : Int) (s : σ)
    (hfam : schemeFamily scheme = Except.ok fam)
    (hmiss : os.pathExists
      (pathJoin (Client._plugin_uds_path os) fam) = false) :
    (Client._check_daemon_exists os = true →
      Client.init w os uri scheme pw timeout_ms flags s =
        (s, [], Except.error (PyExc.lsmError
          { errno := ErrorNumber.PLUGIN_NOT_EXIST,
            msg := "Plug-in " ++
              pathJoin (Client._plugin_uds_path os) fam ++
              " not found!" }))) ∧
    (Client._check_daemon_exists os = false →
      Client.init w os uri scheme pw timeout_ms flags s =
        (s, [], Except.error (PyExc.lsmError
          { errno := ErrorNumber.DAEMON_NOT_RUNNING,
            msg := "The libStorageMgmt daemon is not running" }))) ∧
    (Client._check_daemon_exists os =
      (os.pathExists (Client._plugin_uds_path os) &&
        (os.walkFiles (Client._plugin_uds_path os)).any
          (fun f => os.socketOk
            (pathJoin (Client._plugin_uds_path os) f)))) ∧
    ErrorNumber.PLUGIN_NOT_EXIST ≠ ErrorNumber.DAEMON_NOT_RUNNING := by
  refine ⟨?_, ?_, check_daemon_exists_eq os, by decide⟩
  · intro hchk
    simp [Client.init, hfam, hmiss, hchk]
  · intro hchk
    simp [Client.init, hfam, hmiss, hchk]

/-- Witness for C2: with the named socket absent, a base directory
holding one live foreign socket gives PLUGIN_NOT_EXIST, and the same
layout with the foreign socket dead gives DAEMON_NOT_RUNNING. -/
theorem C2_locator_disambiguation_witness :
    ((Lsm.Client.init okWire
      { env_LSM_UDS_PATH := none,
        pathExists := fun p => p = UDS_PATH,
        walkFiles := fun _ => ["other"],
        socketOk := fun _ => true,
        pluginInfoAt := fun _ => ("d", "v") }
      "sim://host" "sim" none 30000 0 ()).2.2 =
      Except.error (PyExc.lsmError
        { errno := ErrorNumber.PLUGIN_NOT_EXIST,
          msg := "Plug-in " ++ pathJoin UDS_PATH "sim" ++
            " not found!" })) ∧
    ((Lsm.Client.init okWire
      { env_LSM_UDS_PATH := none,
        pathExists := fun p => p = UDS_PATH,
        walkFiles := fun _ => ["other"],
        socketOk := fun _ => false,
        pluginInfoAt := fun _ => ("d", "v") }
      "sim://host" "sim" none 30000 0 ()).2.2 =
      Except.error (PyExc.lsmError
        { errno := ErrorNumber.DAEMON_NOT_RUNNING,
          msg := "The libStorageMgmt daemon is not running" })) := by
  constructor
  · have h := (C2_locator_disambiguation okWire
      { env_LSM_UDS_PATH := none,
        pathExists := fun p => p = UDS_PATH,
        walkFiles := fun _ => ["other"],
        socketOk := fun _ => true,
        pluginInfoAt := fun _ => ("d", "v") }
      "sim://host" "sim" "sim" none 30000 0 () rfl (by decide)).1 (by decide)
    rw [h]
    rfl
  · have h := (C2_locator_disambiguation okWire
      { env_LSM_UDS_PATH := none,
        pathExists := fun p => p = UDS_PATH,
        walkFiles := fun _ => ["other"],
        socketOk := fun _ => false,
        pluginInfoAt := fun _ => ("d", "v") }
      "sim://host" "sim" "sim" none 30000 0 () rfl (by decide)).2.1
      (by decide)
    rw [h]

/-- C8 counterexample: for the scheme `a+b+c` (a syntactically valid
URI scheme with two plus separators) the claimed truncation at the
plus separator would resolve the socket path base-dir/a, and with that
path existing and live the connection would be built; instead the
two-element tuple assignment over the three-part split raises a
ValueError and the constructor fails without computing any path. -/
theorem C8_counterexample :
    (Lsm.Client.init okWire
      { env_LSM_UDS_PATH := none,
        pathExists := fun _ => true,
        walkFiles := fun _ => ["a"],
        socketOk := fun _ => true,
        pluginInfoAt := fun _ => ("d", "v") }
      "a+b+c://host" "a+b+c" none 30000 0 ()).2.2 =
      Except.error (PyExc.valueError "too many values to unpack") := by
  rfl

/-- C8 (amended): the connection socket path is computed as
base-dir/scheme-family, where the family is the URI scheme truncated
at the plus separator when exactly one plus is present (and the scheme
itself when none is); a scheme with two or more plus separators makes
the constructor raise a tuple-unpacking ValueError instead of
computing a path.  base-dir is the well-known default unless the
single environment override LSM_UDS_PATH is set, in which case its
value is used for both connection and discovery. -/
theorem C8_socket_path_resolution {σ : Type} (w : StWire σ) (os : OS)
    (uri scheme : String) (pw : Option String)
    (timeout_ms flags : Int) (s : σ) :
    (scheme.toList.contains plusChar = false →
      schemeFamily scheme = Except.ok scheme) ∧
    (∀ a b, scheme.toList.contains plusChar = true →
      pySplitChar plusChar scheme.toList = [a, b] →
      schemeFamily scheme = Except.ok (String.mk a)) ∧
    (scheme.toList.contains plusChar = true →
      (pySplitChar plusChar scheme.toList).length ≠ 2 →
      schemeFamily scheme =
        Except.error (PyExc.valueError "too many values to unpack")) ∧
    (∀ p, os.env_LSM_UDS_PATH = some p →
      Client._plugin_uds_path os = p) ∧
    (os.env_LSM_UDS_PATH = none →
      Client._plugin_uds_path os = UDS_PATH) ∧
    (∀ fam s2 rv, schemeFamily scheme = Except.ok fam →
      os.pathExists (pathJoin (Client._plugin_uds_path os) fam) = true →
      os.socketOk (pathJoin (Client._plugin_uds_path os) fam) = true →
      w.resp "plugin_register"
        [("uri", Value.str uri), ("password", optStrV pw),
         ("timeout", Value.int timeout_ms),
         ("flags", Value.int flags)] s = (s2, Except.ok rv) →
      (Client.init w os uri scheme pw timeout_ms flags s).2.2 =
        Except.ok
          { plugin_path := pathJoin (Client._plugin_uds_path os) fam,
            tp := some
              { path := pathJoin (Client._plugin_uds_path os) fam } }) ∧
    (Client._check_daemon_exists os =
      (os.pathExists (Client._plugin_uds_path os) &&
        (os.walkFiles (Client._plugin_uds_path os)).any
          (fun f => os.socketOk
            (pathJoin (Client._plugin_uds_path os) f)))) := by
  refine ⟨?_, ?_, ?_, ?_, ?_, ?_, check_daemon_exists_eq os⟩
  · intro hc
    simp only [schemeFamily, hc]
    simp
  · intro a b hc hsp
    simp only [schemeFamily, hc, hsp]
    simp
  · intro hc hlen
    simp only [schemeFamily, hc, if_true]
    rcases hsp : pySplitChar plusChar scheme.toList with _ | ⟨a, rest⟩
    · rfl
    · rcases rest with _ | ⟨b, rest2⟩
      · rfl
      · rcases rest2 with _ | ⟨c, rest3⟩
        · rw [hsp] at hlen
          simp at hlen
        · rfl
  · intro p hp
    simp [Client._plugin_uds_path, hp]
  · intro hp
    simp [Client._plugin_uds_path, hp]
  · intro fam s2 rv hfam hex hsock hw
    simp [Client.init, hfam, hex, hsock, hw]

/-- Witness for C8: the family of `sim` is `sim`, the family of
`sim+ssl` is `sim`, a default-path client connects at the default
base directory joined with the family, and an override directory is
honoured. -/
theorem C8_socket_path_resolution_witness :
    (schemeFamily "sim+ssl" = Except.ok "sim") ∧
    (schemeFamily "sim" = Except.ok "sim") ∧
    (Client._plugin_uds_path
      { env_LSM_UDS_PATH := some "/tmp/lsm",
        pathExists := fun _ => true,
        walkFiles := fun _ => ["sim"],
        socketOk := fun _ => true,
        pluginInfoAt := fun _ => ("d", "v") } = "/tmp/lsm") ∧
    ((Lsm.Client.init okWire
      { env_LSM_UDS_PATH := some "/tmp/lsm",
        pathExists := fun _ => true,
        walkFiles := fun _ => ["sim"],
        socketOk := fun _ => true,
        pluginInfoAt := fun _ => ("d", "v") }
      "sim+ssl://host" "sim+ssl" none 30000 0 ()).2.2 =
      Except.ok { plugin_path := "/tmp/lsm/sim",
                  tp := some { path := "/tmp/lsm/sim" } }) := by
  have h := C8_socket_path_resolution okWire
    { env_LSM_UDS_PATH := some "/tmp/lsm",
      pathExists := fun _ => true,
      walkFiles := fun _ => ["sim"],
      socketOk := fun _ => true,
      pluginInfoAt := fun _ => ("d", "v") }
    "sim+ssl://host" "sim+ssl" none 30000 0 ()
  refine ⟨h.2.1 "sim".toList "ssl".toList rfl rfl, ?_, h.2.2.2.1 "/tmp/lsm" rfl, ?_⟩
  · exact (C8_socket_path_resolution okWire
      { env_LSM_UDS_PATH := some "/tmp/lsm",
        pathExists := fun _ => true,
        walkFiles := fun _ => ["sim"],
        socketOk := fun _ => true,
        pluginInfoAt := fun _ => ("d", "v") }
      "sim://host" "sim" none 30000 0 ()).1 rfl
  · have hc := h.2.2.2.2.2.1 "sim" () Value.null
      (h.2.1 "sim".toList "ssl".toList rfl rfl) rfl rfl rfl
    rw [hc]
    rfl

/-! ## Timeout, job and dual-result stub operations
(`_client.py` lines 204-258, 326-412, 535-593, 873-990) -/

/-- `Client.time_out_set` (lines 208-215): dispatch the request. -/
def Client.time_out_set {σ : Type} (w : StWire σ) (c : Client) (ms : Int)
    (flags : Int) (s : σ) : σ × List Event × Except PyExc Value :=
  Client.rpcCall w c "time_out_set"
    [("ms", Value.int ms), ("flags", Value.int flags)] s

/-- `Client.time_out_get` (lines 221-228): dispatch the request. -/
def Client.time_out_get {σ : Type} (w : StWire σ) (c : Client)
    (flags : Int) (s : σ) : σ × List Event × Except PyExc Value :=
  Client.rpcCall w c "time_out_get" [("flags", Value.int flags)] s

/-- `Client.job_status` (lines 236-245): dispatch the request. -/
def Client.job_status {σ : Type} (w : StWire σ) (c : Client)
    (job_id : String) (flags : Int) (s : σ) :
    σ × List Event × Except PyExc Value :=
  Client.rpcCall w c "job_status"
    [("job_id", Value.str job_id), ("flags", Value.int flags)] s

/-- `Client.job_free` (lines 251-258): dispatch the request. -/
def Client.job_free {σ : Type} (w : StWire σ) (c : Client)
    (job_id : String) (flags : Int) (s : σ) :
    σ × List Event × Except PyExc Value :=
  Client.rpcCall w c "job_free"
    [("job_id", Value.str job_id), ("flags", Value.int flags)] s

/-- `Client.volume_create` (lines 544-554): dispatch the request. -/
def Client.volume_create {σ : Type} (w : StWire σ) (c : Client)
    (pool : Value) (volume_name : String) (size_bytes : Int)
    (provisioning : Int) (flags : Int) (s : σ) :
    σ × List Event × Except PyExc Value :=
  Client.rpcCall w c "volume_create"
    [("pool", pool), ("volume_name", Value.str volume_name),
     ("size_bytes", Value.int size_bytes),
     ("provisioning", Value.int provisioning),
     ("flags", Value.int flags)] s

/-- `Client.volume_resize` (lines 563-572): dispatch the request. -/
def Client.volume_resize {σ : Type} (w : StWire σ) (c : Client)
    (volume : Value) (new_size_bytes : Int) (flags : Int) (s : σ) :
    σ × List Event × Except PyExc Value :=
  Client.rpcCall w c "volume_resize"
    [("volume", volume), ("new_size_bytes", Value.int new_size_bytes),
     ("flags", Value.int flags)] s

/-- `Client.volume_replicate` (lines 584-593): dispatch the request. -/
def Client.volume_replicate {σ : Type} (w : StWire σ) (c : Client)
    (pool : Value) (rep_type : Int) (volume_src : Value) (name : String)
    (flags : Int) (s : σ) : σ × List Event × Except PyExc Value :=
  Client.rpcCall w c "volume_replicate"
    [("pool", pool), ("rep_type", Value.int rep_type),
     ("volume_src", volume_src), ("name", Value.str name),
     ("flags", Value.int flags)] s

/-- `Client.fs_create` (lines 899-909): dispatch the request. -/
def Client.fs_create {σ : Type} (w : StWire σ) (c : Client)
    (pool : Value) (name : String) (size_bytes : Int) (flags : Int)
    (s : σ) : σ × List Event × Except PyExc Value :=
  Client.rpcCall w c "fs_create"
    [("pool", pool), ("name", Value.str name),
     ("size_bytes", Value.int size_bytes), ("flags", Value.int flags)] s

/-- `Client.fs_resize` (lines 880-889): dispatch the request. -/
def Client.fs_resize {σ : Type} (w : StWire σ) (c : Client)
    (fs : Value) (new_size_bytes : Int) (flags : Int) (s : σ) :
    σ × List Event × Except PyExc Value :=
  Client.rpcCall w c "fs_resize"
    [("fs", fs), ("new_size_bytes", Value.int new_size_bytes),
     ("flags", Value.int flags)] s

/-- `Client.fs_clone` (lines 918-928): dispatch the request. -/
def Client.fs_clone {σ : Type} (w : StWire σ) (c : Client)
    (src_fs : Value) (dest_fs_name : String) (snapshot : Value)
    (flags : Int) (s : σ) : σ × List Event × Except PyExc Value :=
  Client.rpcCall w c "fs_clone"
    [("src_fs", src_fs), ("dest_fs_name", Value.str dest_fs_name),
     ("snapshot", snapshot), ("flags", Value.int flags)] s

/-- `Client.fs_snapshot_create` (lines 970-990): dispatch the request. -/
def Client.fs_snapshot_create {σ : Type} (w : StWire σ) (c : Client)
    (fs : Value) (snapshot_name : String) (files : Value) (flags : Int)
    (s : σ) : σ × List Event × Except PyExc Value :=
  Client.rpcCall w c "fs_snapshot_create"
    [("fs", fs), ("snapshot_name", Value.str snapshot_name),
     ("files", files), ("flags", Value.int flags)] s

/-- `Client.pool_create_from_disks` (lines 356-363): dispatch the
request. -/
def Client.pool_create_from_disks {σ : Type} (w : StWire σ) (c : Client)
    (system_id : String) (pool_name : String) (disks : Value)
    (raid_type : Int) (flags : Int) (s : σ) :
    σ × List Event × Except PyExc Value :=
  Client.rpcCall w c "pool_create_from_disks"
    [("system_id", Value.str system_id),
     ("pool_name", Value.str pool_name), ("disks", disks),
     ("raid_type", Value.int raid_type), ("flags", Value.int flags)] s

/-- `Client.pool_create_from_volumes` (lines 383-390): dispatch the
request. -/
def Client.pool_create_from_volumes {σ : Type} (w : StWire σ) (c : Client)
    (system_id : String) (pool_name : String) (volumes : Value)
    (raid_type : Int) (flags : Int) (s : σ) :
    σ × List Event × Except PyExc Value :=
  Client.rpcCall w c "pool_create_from_volumes"
    [("system_id", Value.str system_id),
     ("pool_name", Value.str pool_name), ("volumes", volumes),
     ("raid_type", Value.int raid_type), ("flags", Value.int flags)] s

/-- `Client.pool_create_from_pool` (lines 405-412): dispatch the
request. -/
def Client.pool_create_from_pool {σ : Type} (w : StWire σ) (c : Client)
    (system_id : String) (pool_name : String) (pool : Value)
    (size_bytes : Int) (flags : Int) (s : σ) :
    σ × List Event × Except PyExc Value :=
  Client.rpcCall w c "pool_create_from_pool"
    [("system_id", Value.str system_id),
     ("pool_name", Value.str pool_name), ("pool", pool),
     ("size_bytes", Value.int size_bytes), ("flags", Value.int flags)] s

/-- `Client.close` (lines 168-175): issue the `plugin_unregister` RPC,
close the one socket, and set `self._tp` to `None`; when the RPC
raises, the socket is not closed and the client is unchanged. -/
def Client.close {σ : Type} (w : StWire σ) (c : Client) (flags : Int)
    (s : σ) : σ × List Event × Except PyExc Unit × Client :=
  match c.tp with
  | none => (s, [], Except.error (PyExc.attributeError
      "NoneType object has no attribute rpc"), c)
  | some tp =>
    match w.resp "plugin_unregister" [("flags", Value.int flags)] s with
    | (s2, Except.ok _) =>
        (s2, [Event.rpcSent "plugin_unregister" [("flags", Value.int flags)],
              Event.sockClosed tp.path],
         Except.ok (), { c with tp := none })
    | (s2, Except.error e) =>
        (s2, [Event.rpcSent "plugin_unregister" [("flags", Value.int flags)]],
         Except.error (PyExc.lsmError e), c)

/-- `Client.plugin_unregister` (lines 158-163): a synonym for close. -/
def Client.plugin_unregister {σ : Type} (w : StWire σ) (c : Client)
    (flags : Int) (s : σ) : σ × List Event × Except PyExc Unit × Client :=
  Client.close w c flags s

/-- The exception a stub method raises when it dereferences the
`None` transport of a closed client. -/
def attrExc : PyExc :=
  PyExc.attributeError "NoneType object has no attribute rpc"

/-- Recognizer for socket-close events. -/
def Event.isSockClosed : Event → Bool
  | Event.sockClosed _ => true
  | _ => false

/-- C9: the connection socket is closed exactly once, on the explicit
close (or its synonym plugin_unregister), which sets the transport to
None; afterwards every operation on the client fails with an error
instead of silently succeeding, and touches neither the wire nor the
socket again. -/
theorem C9_close_exactly_once {σ : Type} (w : StWire σ) (c c2 : Client)
    (tp : TransPort) (flags iA iB : Int) (s s2 : σ) (rv : Value)
    (vA vB : Value) (nA nB : String) (szPos : Int) (jid : String)
    (hopen : c.tp = some tp)
    (hw : w.resp "plugin_unregister" [("flags", Value.int flags)] s =
      (s2, Except.ok rv))
    (hclosed : c2.tp = none) (hpos : 0 < szPos) :
    (Client.close w c flags s =
      (s2, [Event.rpcSent "plugin_unregister" [("flags", Value.int flags)],
            Event.sockClosed tp.path],
       Except.ok (), { plugin_path := c.plugin_path, tp := none })) ∧
    ((Client.close w c flags s).2.1.countP Event.isSockClosed = 1) ∧
    (Client.close w c2 flags s = (s, [], Except.error attrExc, c2)) ∧
    (Client.plugin_unregister w c2 flags s =
      (s, [], Except.error attrExc, c2)) ∧
    (Client.pools w c2 none none iA s = (s, [], Except.error attrExc)) ∧
    (Client.volumes w c2 none none iA s = (s, [], Except.error attrExc)) ∧
    (Client.disks w c2 none none iA s = (s, [], Except.error attrExc)) ∧
    (Client.access_groups w c2 none none iA s =
      (s, [], Except.error attrExc)) ∧
    (Client.fs w c2 none none iA s = (s, [], Except.error attrExc)) ∧
    (Client.exports w c2 none none iA s = (s, [], Except.error attrExc)) ∧
    (Client.time_out_set w c2 iA iB s = (s, [], Except.error attrExc)) ∧
    (Client.time_out_get w c2 iA s = (s, [], Except.error attrExc)) ∧
    (Client.job_status w c2 jid iA s = (s, [], Except.error attrExc)) ∧
    (Client.job_free w c2 jid iA s = (s, [], Except.error attrExc)) ∧
    (Client.volume_create w c2 vA nA szPos iA iB s =
      (s, [], Except.error attrExc)) ∧
    (Client.volume_resize w c2 vA szPos iA s =
      (s, [], Except.error attrExc)) ∧
    (Client.volume_replicate w c2 vA iA vB nA iB s =
      (s, [], Except.error attrExc)) ∧
    (Client.fs_create w c2 vA nA szPos iA s =
      (s, [], Except.error attrExc)) ∧
    (Client.fs_resize w c2 vA szPos iA s = (s, [], Except.error attrExc)) ∧
    (Client.fs_clone w c2 vA nA vB iA s = (s, [], Except.error attrExc)) ∧
    (Client.fs_snapshot_create w c2 vA nA vB iA s =
      (s, [], Except.error attrExc)) ∧
    (Client.pool_create w c2 vA nA szPos iA iB flags s =
      (s, [], Except.error attrExc)) ∧
    (Client.pool_create_from_disks w c2 nA nB vA iA iB s =
      (s, [], Except.error attrExc)) ∧
    (Client.pool_create_from_volumes w c2 nA nB vA iA iB s =
      (s, [], Except.error attrExc)) ∧
    (Client.pool_create_from_pool w c2 nA nB vA szPos iA s =
      (s, [], Except.error attrExc)) := by
  have hcl : Client.close w c flags s =
      (s2, [Event.rpcSent "plugin_unregister" [("flags", Value.int flags)],
            Event.sockClosed tp.path],
       Except.ok (), { plugin_path := c.plugin_path, tp := none }) := by
    cases c with
    | mk pp ctp =>
      cases hopen
      simp [Client.close, hw]
  have hnpos : ¬ szPos ≤ 0 := by omega
  refine ⟨hcl, by rw [hcl]; simp [Event.isSockClosed, List.countP_cons,
            List.countP_nil],
          ?_, ?_, ?_, ?_, ?_, ?_, ?_, ?_, ?_, ?_, ?_, ?_, ?_,
          ?_, ?_, ?_, ?_, ?_, ?_, ?_, ?_, ?_, ?_⟩ <;>
    simp [Client.close, Client.plugin_unregister, Client.pools,
          Client.volumes, Client.disks, Client.access_groups, Client.fs,
          Client.exports, Client.time_out_set, Client.time_out_get,
          Client.job_status, Client.job_free, Client.volume_create,
          Client.volume_resize, Client.volume_replicate, Client.fs_create,
          Client.fs_resize, Client.fs_clone, Client.fs_snapshot_create,
          Client.pool_create, Client.pool_create_from_disks,
          Client.pool_create_from_volumes, Client.pool_create_from_pool,
          Client.rpcCall, _check_search_key, hclosed, hnpos, attrExc,
          Event.isSockClosed, List.countP_cons, List.countP_nil]

/-- Witness for C9: closing a live client closes its one socket and a
closed client rejects volume_create, job_status and a second close. -/
theorem C9_close_exactly_once_witness :
    (Lsm.Client.close okWire simClient 0 () =
      ((), [Event.rpcSent "plugin_unregister" [("flags", Value.int 0)],
            Event.sockClosed "/var/run/lsm/ipc/sim"],
       Except.ok (), { plugin_path := "/var/run/lsm/ipc/sim",
                       tp := none })) ∧
    (Lsm.Client.volume_create okWire
      { plugin_path := "/var/run/lsm/ipc/sim", tp := none }
      Value.null "v" 1 0 0 () = ((), [], Except.error attrExc)) ∧
    (Lsm.Client.close okWire
      { plugin_path := "/var/run/lsm/ipc/sim", tp := none } 0 () =
      ((), [], Except.error attrExc,
       { plugin_path := "/var/run/lsm/ipc/sim", tp := none })) := by
  have h := C9_close_exactly_once okWire simClient
    { plugin_path := "/var/run/lsm/ipc/sim", tp := none }
    { path := "/var/run/lsm/ipc/sim" } 0 0 0 () () Value.null
    Value.null Value.null "v" "n" 1 "j" rfl rfl rfl (by decide)
  exact ⟨h.1, h.2.2.2.2.2.2.2.2.2.2.2.2.2.2.1, h.2.2.1⟩

/-- An open client with a live wire returns the wire response of its
one request unchanged. -/
theorem rpcCall_ok {σ : Type} (w : StWire σ) (c : Client) (tp : TransPort)
    (m : String) (args : List (String × Value)) (s s2 : σ) (v : Value)
    (hopen : c.tp = some tp) (hw : w.resp m args s = (s2, Except.ok v)) :
    Client.rpcCall w c m args s = (s2, [Event.rpcSent m args],
      Except.ok v) := by
  cases c with
  | mk pp ctp =>
    cases hopen
    simp [Client.rpcCall, hw]

/-- C1: every operation declaring the dual-result contract
(volume_create, volume_resize, volume_replicate, fs_create, fs_resize,
fs_clone, fs_snapshot_create, pool_create and the pool_create_from_*
variants) hands the plugin response pair to the caller unchanged, so
whenever the response satisfies exactly-one-of (job id present, result
present), the value the client returns to the caller is a pair in
which exactly one of the two is present — never both, never neither.
The client adds no pair of its own and never drops or fills a half;
the spec notes the invariant itself is enforced by plugin convention,
not re-checked centrally. -/
theorem C1_dual_result_contract {σ : Type} (w : StWire σ) (c : Client)
    (tp : TransPort) (s : σ) (hopen : c.tp = some tp) :
    (∀ (pool : Value) (vn : String) (sb pv fl : Int) (s2 : σ) (v : Value),
      w.resp "volume_create"
        [("pool", pool), ("volume_name", Value.str vn),
         ("size_bytes", Value.int sb), ("provisioning", Value.int pv),
         ("flags", Value.int fl)] s = (s2, Except.ok v) →
      dualResultOk v = true →
      (Client.volume_create w c pool vn sb pv fl s).2.2 = Except.ok v ∧
        dualResultOk v = true) ∧
    (∀ (vol : Value) (nsb fl : Int) (s2 : σ) (v : Value),
      w.resp "volume_resize"
        [("volume", vol), ("new_size_bytes", Value.int nsb),
         ("flags", Value.int fl)] s = (s2, Except.ok v) →
      dualResultOk v = true →
      (Client.volume_resize w c vol nsb fl s).2.2 = Except.ok v ∧
        dualResultOk v = true) ∧
    (∀ (pool : Value) (rt : Int) (src : Value) (nm : String) (fl : Int)
        (s2 : σ) (v : Value),
      w.resp "volume_replicate"
        [("pool", pool), ("rep_type", Value.int rt), ("volume_src", src),
         ("name", Value.str nm), ("flags", Value.int fl)] s =
        (s2, Except.ok v) →
      dualResultOk v = true →
      (Client.volume_replicate w c pool rt src nm fl s).2.2 =
        Except.ok v ∧ dualResultOk v = true) ∧
    (∀ (pool : Value) (nm : String) (sb fl : Int) (s2 : σ) (v : Value),
      w.resp "fs_create"
        [("pool", pool), ("name", Value.str nm),
         ("size_bytes", Value.int sb), ("flags", Value.int fl)] s =
        (s2, Except.ok v) →
      dualResultOk v = true →
      (Client.fs_create w c pool nm sb fl s).2.2 = Except.ok v ∧
        dualResultOk v = true) ∧
    (∀ (fsv : Value) (nsb fl : Int) (s2 : σ) (v : Value),
      w.resp "fs_resize"
        [("fs", fsv), ("new_size_bytes", Value.int nsb),
         ("flags", Value.int fl)] s = (s2, Except.ok v) →
      dualResultOk v = true →
      (Client.fs_resize w c fsv nsb fl s).2.2 = Except.ok v ∧
        dualResultOk v = true) ∧
    (∀ (src : Value) (dn : String) (snap : Value) (fl : Int) (s2 : σ)
        (v : Value),
      w.resp "fs_clone"
        [("src_fs", src), ("dest_fs_name", Value.str dn),
         ("snapshot", snap), ("flags", Value.int fl)] s =
        (s2, Except.ok v) →
      dualResultOk v = true →
      (Client.fs_clone w c src dn snap fl s).2.2 = Except.ok v ∧
        dualResultOk v = true) ∧
    (∀ (fsv : Value) (sn : String) (files : Value) (fl : Int) (s2 : σ)
        (v : Value),
      w.resp "fs_snapshot_create"
        [("fs", fsv), ("snapshot_name", Value.str sn), ("files", files),
         ("flags", Value.int fl)] s = (s2, Except.ok v) →
      dualResultOk v = true →
      (Client.fs_snapshot_create w c fsv sn files fl s).2.2 =
        Except.ok v ∧ dualResultOk v = true) ∧
    (∀ (sys : Value) (pn : String) (sb rt mt fl : Int) (s2 : σ)
        (v : Value), 0 < sb →
      w.resp "pool_create"
        [("system", sys), ("pool_name", Value.str pn),
         ("size_bytes", Value.int sb), ("raid_type", Value.int rt),
         ("member_type", Value.int mt), ("flags", Value.int fl)] s =
        (s2, Except.ok v) →
      dualResultOk v = true →
      (Client.pool_create w c sys pn sb rt mt fl s).2.2 = Except.ok v ∧
        dualResultOk v = true) ∧
    (∀ (sid pn : String) (disks : Value) (rt fl : Int) (s2 : σ)
        (v : Value),
      w.resp "pool_create_from_disks"
        [("system_id", Value.str sid), ("pool_name", Value.str pn),
         ("disks", disks), ("raid_type", Value.int rt),
         ("flags", Value.int fl)] s = (s2, Except.ok v) →
      dualResultOk v = true →
      (Client.pool_create_from_disks w c sid pn disks rt fl s).2.2 =
        Except.ok v ∧ dualResultOk v = true) ∧
    (∀ (sid pn : String) (vols : Value) (rt fl : Int) (s2 : σ)
        (v : Value),
      w.resp "pool_create_from_volumes"
        [("system_id", Value.str sid), ("pool_name", Value.str pn),
         ("volumes", vols), ("raid_type", Value.int rt),
         ("flags", Value.int fl)] s = (s2, Except.ok v) →
      dualResultOk v = true →
      (Client.pool_create_from_volumes w c sid pn vols rt fl s).2.2 =
        Except.ok v ∧ dualResultOk v = true) ∧
    (∀ (sid pn : String) (pool : Value) (sb fl : Int) (s2 : σ)
        (v : Value),
      w.resp "pool_create_from_pool"
        [("system_id", Value.str sid), ("pool_name", Value.str pn),
         ("pool", pool), ("size_bytes", Value.int sb),
         ("flags", Value.int fl)] s = (s2, Except.ok v) →
      dualResultOk v = true →
      (Client.pool_create_from_pool w c sid pn pool sb fl s).2.2 =
        Except.ok v ∧ dualResultOk v = true) := by
  refine ⟨?_, ?_, ?_, ?_, ?_, ?_, ?_, ?_, ?_, ?_, ?_⟩
  · intro pool vn sb pv fl s2 v hw hd
    exact ⟨by simp [Client.volume_create,
      rpcCall_ok w c tp _ _ s s2 v hopen hw], hd⟩
  · intro vol nsb fl s2 v hw hd
    exact ⟨by simp [Client.volume_resize,
      rpcCall_ok w c tp _ _ s s2 v hopen hw], hd⟩
  · intro pool rt src nm fl s2 v hw hd
    exact ⟨by simp [Client.volume_replicate,
      rpcCall_ok w c tp _ _ s s2 v hopen hw], hd⟩
  · intro pool nm sb fl s2 v hw hd
    exact ⟨by simp [Client.fs_create,
      rpcCall_ok w c tp _ _ s s2 v hopen hw], hd⟩
  · intro fsv nsb fl s2 v hw hd
    exact ⟨by simp [Client.fs_resize,
      rpcCall_ok w c tp _ _ s s2 v hopen hw], hd⟩
  · intro src dn snap fl s2 v hw hd
    exact ⟨by simp [Client.fs_clone,
      rpcCall_ok w c tp _ _ s s2 v hopen hw], hd⟩
  · intro fsv sn files fl s2 v hw hd
    exact ⟨by simp [Client.fs_snapshot_create,
      rpcCall_ok w c tp _ _ s s2 v hopen hw], hd⟩
  · intro sys pn sb rt mt fl s2 v hpos hw hd
    have hnpos : ¬ sb ≤ 0 := by omega
    exact ⟨by simp [Client.pool_create, hnpos,
      rpcCall_ok w c tp _ _ s s2 v hopen hw], hd⟩
  · intro sid pn disks rt fl s2 v hw hd
    exact ⟨by simp [Client.pool_create_from_disks,
      rpcCall_ok w c tp _ _ s s2 v hopen hw], hd⟩
  · intro sid pn vols rt fl s2 v hw hd
    exact ⟨by simp [Client.pool_create_from_volumes,
      rpcCall_ok w c tp _ _ s s2 v hopen hw], hd⟩
  · intro sid pn pool sb fl s2 v hw hd
    exact ⟨by simp [Client.pool_create_from_pool,
      rpcCall_ok w c tp _ _ s s2 v hopen hw], hd⟩

/-- A dual-result pair carrying a job id and no immediate result. -/
def dualVal : Value := Value.list [Value.str "JOB_1", Value.null]

/-- A fixed stateless wire whose every response is `dualVal`. -/
def dualWire : StWire Unit :=
  { resp := fun _ _ s => (s, Except.ok dualVal) }

/-- Witness for C1: against a plugin answering the conforming pair
(job id, None), all eleven dual-result operations hand exactly that
pair back to the caller. -/
theorem C1_dual_result_contract_witness :
    dualResultOk dualVal = true ∧
    (Lsm.Client.volume_create dualWire simClient Value.null "v" 1 0 0
      ()).2.2 = Except.ok dualVal ∧
    (Lsm.Client.volume_resize dualWire simClient Value.null 1 0
      ()).2.2 = Except.ok dualVal ∧
    (Lsm.Client.volume_replicate dualWire simClient Value.null 0
      Value.null "r" 0 ()).2.2 = Except.ok dualVal ∧
    (Lsm.Client.fs_create dualWire simClient Value.null "f" 1 0
      ()).2.2 = Except.ok dualVal ∧
    (Lsm.Client.fs_resize dualWire simClient Value.null 1 0 ()).2.2 =
      Except.ok dualVal ∧
    (Lsm.Client.fs_clone dualWire simClient Value.null "d" Value.null 0
      ()).2.2 = Except.ok dualVal ∧
    (Lsm.Client.fs_snapshot_create dualWire simClient Value.null "s"
      Value.null 0 ()).2.2 = Except.ok dualVal ∧
    (Lsm.Client.pool_create dualWire simClient Value.null "p" 1 0 0 0
      ()).2.2 = Except.ok dualVal ∧
    (Lsm.Client.pool_create_from_disks dualWire simClient "sys" "p"
      Value.null 0 0 ()).2.2 = Except.ok dualVal ∧
    (Lsm.Client.pool_create_from_volumes dualWire simClient "sys" "p"
      Value.null 0 0 ()).2.2 = Except.ok dualVal ∧
    (Lsm.Client.pool_create_from_pool dualWire simClient "sys" "p"
      Value.null 1 0 ()).2.2 = Except.ok dualVal := by
  have h := C1_dual_result_contract dualWire simClient
    { path := "/var/run/lsm/ipc/sim" } () rfl
  refine ⟨rfl, ?_, ?_, ?_, ?_, ?_, ?_, ?_, ?_, ?_, ?_, ?_⟩
  · exact (h.1 Value.null "v" 1 0 0 () dualVal rfl rfl).1
  · exact (h.2.1 Value.null 1 0 () dualVal rfl rfl).1
  · exact (h.2.2.1 Value.null 0 Value.null "r" 0 () dualVal rfl rfl).1
  · exact (h.2.2.2.1 Value.null "f" 1 0 () dualVal rfl rfl).1
  · exact (h.2.2.2.2.1 Value.null 1 0 () dualVal rfl rfl).1
  · exact (h.2.2.2.2.2.1 Value.null "d" Value.null 0 () dualVal rfl rfl).1
  · exact (h.2.2.2.2.2.2.1 Value.null "s" Value.null 0 () dualVal
      rfl rfl).1
  · exact (h.2.2.2.2.2.2.2.1 Value.null "p" 1 0 0 0 () dualVal
      (by decide) rfl rfl).1
  · exact (h.2.2.2.2.2.2.2.2.1 "sys" "p" Value.null 0 0 () dualVal
      rfl rfl).1
  · exact (h.2.2.2.2.2.2.2.2.2.1 "sys" "p" Value.null 0 0 () dualVal
      rfl rfl).1
  · exact (h.2.2.2.2.2.2.2.2.2.2 "sys" "p" Value.null 1 0 () dualVal
      rfl rfl).1

/-! ## IBM V7000 plugin (`src/plugin/v7k/ibmv7k.py`)

The transport of the plugin to the array is a lightweight paramiko SSH
client; only its connection parameters are observable to the claims,
the CLI command plumbing being vendor attribute translation that the
spec leaves out of scope. -/

/-- The connection parameters an `SSHClient` instance was built with
(lines 61-74). -/
structure SSHClient where
  hostname : String
  login : String
  passwd : Option String
  conn_timeout : Int
deriving DecidableEq, Repr

/-- SSH-connection events of the v7k plugin. -/
inductive V7kEv where
  | sshClosed (c : SSHClient)
  | sshOpened (c : SSHClient)
deriving DecidableEq, Repr

/-- The network oracle for SSH connection attempts: whether connecting
to a given host with a given timeout succeeds. -/
structure SshNet where
  connectOk : String → Int → Bool

/-- `SSHClient.__init__` (lines 63-74) under `handle_ssh_errors`
(lines 25-32): a connect failure surfaces as an
`LsmError TRANSPORT_COMMUNICATION`. -/
def SSHClient.connect (net : SshNet) (hostname login : String)
    (passwd : Option String) (conn_timeout : Int) :
    Except LsmError SSHClient :=
  if net.connectOk hostname conn_timeout then
    Except.ok { hostname := hostname, login := login, passwd := passwd,
                conn_timeout := conn_timeout }
  else
    Except.error { errno := ErrorNumber.TRANSPORT_COMMUNICATION,
                   msg := "Error while connecting via ssh" }

/-- The `IbmV7k` plugin state (lines 124-131, fields set by
`plugin_register`): the SSH connection, the timeout, the password and
the host and username kept from the parsed URI. -/
structure IbmV7k where
  ssh : Option SSHClient
  tmo : Int
  password : Option String
  up_host : String
  up_username : String
deriving DecidableEq, Repr

/-- `IbmV7k.time_out_set` (lines 388-392): store the new timeout,
close the live SSH connection and build a fresh `SSHClient` with the
new timeout; if the fresh connect fails the stored timeout remains the
new one and the stale closed connection stays in place while the error
propagates. -/
def IbmV7k.time_out_set (net : SshNet) (p : IbmV7k) (ms : Int) :
    IbmV7k × List V7kEv × Except PyExc Unit :=
  match p.ssh with
  | none => (p, [], Except.error (PyExc.attributeError
      "NoneType object has no attribute close"))
  | some sc =>
    match SSHClient.connect net p.up_host p.up_username p.password ms with
    | Except.ok nc =>
        ({ p with tmo := ms, ssh := some nc },
         [V7kEv.sshClosed sc, V7kEv.sshOpened nc], Except.ok ())
    | Except.error e =>
        ({ p with tmo := ms }, [V7kEv.sshClosed sc],
         Except.error (PyExc.lsmError e))

/-- `IbmV7k.time_out_get` (lines 394-395): return the stored timeout. -/
def IbmV7k.time_out_get (p : IbmV7k) : Int := p.tmo

/-- Modelled from the spec: the daemon-side glue that routes an RPC
arriving on the plugin socket to the plugin method of the same name
(the daemon is an external collaborator, section 2); only the two
timeout methods are served here.  An `LsmError` the method raises
travels back as the wire error; any other exception would crash the
plugin process and is surfaced as `PLUGIN_ERROR`. -/
def v7kServe (net : SshNet) : StWire IbmV7k :=
  { resp := fun m args p =>
      if m = "time_out_set" then
        match List.lookup "ms" args with
        | some (Value.int ms) =>
          match IbmV7k.time_out_set net p ms with
          | (p2, _, Except.ok _) => (p2, Except.ok Value.null)
          | (p2, _, Except.error (PyExc.lsmError e)) =>
              (p2, Except.error e)
          | (p2, _, Except.error _) =>
              (p2, Except.error { errno := ErrorNumber.PLUGIN_ERROR,
                                  msg := "plugin exception" })
        | _ => (p, Except.error { errno := ErrorNumber.PLUGIN_ERROR,
                                  msg := "bad arguments" })
      else if m = "time_out_get" then
        (p, Except.ok (Value.int (IbmV7k.time_out_get p)))
      else
        (p, Except.error { errno := ErrorNumber.NOT_IMPLEMENTED,
                           msg := "API not implemented at this time" }) }

/-- The fresh SSH client `time_out_set` builds: same host, username
and password, carrying the new timeout. -/
def IbmV7k.freshSsh (p : IbmV7k) (x : Int) : SSHClient :=
  { hostname := p.up_host, login := p.up_username,
    passwd := p.password, conn_timeout := x }

/-- C5: setting the timeout to a non-negative x and then reading it
back returns x, and the round trip holds across the forced reconnect
the change triggers: the plugin stores x, closes the live SSH
connection, and opens a fresh connection carrying timeout x (it never
rewrites the timeout of the live connection); through the client stubs
the set call returns None and the following get call returns x. -/
theorem C5_time_out_round_trip (net : SshNet) (c : Client)
    (tp : TransPort) (p : IbmV7k) (sc : SSHClient) (x fl1 fl2 : Int)
    (hx : 0 ≤ x) (hopen : c.tp = some tp) (hssh : p.ssh = some sc)
    (hconn : net.connectOk p.up_host x = true) :
    (IbmV7k.time_out_set net p x =
      ({ p with tmo := x, ssh := some (IbmV7k.freshSsh p x) },
       [V7kEv.sshClosed sc, V7kEv.sshOpened (IbmV7k.freshSsh p x)],
       Except.ok ())) ∧
    (IbmV7k.time_out_get (IbmV7k.time_out_set net p x).1 = x) ∧
    ((IbmV7k.time_out_set net p x).1.ssh =
      some (IbmV7k.freshSsh p x)) ∧
    ((Client.time_out_set (v7kServe net) c x fl1 p).2.2 =
      Except.ok Value.null) ∧
    ((Client.time_out_get (v7kServe net) c fl2
        (Client.time_out_set (v7kServe net) c x fl1 p).1).2.2 =
      Except.ok (Value.int x)) := by
  have hset : IbmV7k.time_out_set net p x =
      ({ p with tmo := x, ssh := some (IbmV7k.freshSsh p x) },
       [V7kEv.sshClosed sc, V7kEv.sshOpened (IbmV7k.freshSsh p x)],
       Except.ok ()) := by
    simp [IbmV7k.time_out_set, hssh, SSHClient.connect, hconn,
          IbmV7k.freshSsh]
  have hresp : (v7kServe net).resp "time_out_set"
      [("ms", Value.int x), ("flags", Value.int fl1)] p =
      ({ p with tmo := x, ssh := some (IbmV7k.freshSsh p x) },
       Except.ok Value.null) := by
    simp [v7kServe, List.lookup, hset]
  have hcall : Client.time_out_set (v7kServe net) c x fl1 p =
      ({ p with tmo := x, ssh := some (IbmV7k.freshSsh p x) },
       [Event.rpcSent "time_out_set"
         [("ms", Value.int x), ("flags", Value.int fl1)]],
       Except.ok Value.null) := by
    simp [Client.time_out_set,
      rpcCall_ok (v7kServe net) c tp "time_out_set"
        [("ms", Value.int x), ("flags", Value.int fl1)] p _ _ hopen hresp]
  have hresp2 : (v7kServe net).resp "time_out_get"
      [("flags", Value.int fl2)]
      { p with tmo := x, ssh := some (IbmV7k.freshSsh p x) } =
      ({ p with tmo := x, ssh := some (IbmV7k.freshSsh p x) },
       Except.ok (Value.int x)) := by
    simp [v7kServe, IbmV7k.time_out_get]
  refine ⟨hset, by rw [hset]; rfl, by rw [hset], by rw [hcall], ?_⟩
  rw [hcall]
  simp [Client.time_out_get,
    rpcCall_ok (v7kServe net) c tp "time_out_get"
      [("flags", Value.int fl2)] _ _ _ hopen hresp2]

/-- Witness for C5 at x = 40000: the registered v7k plugin stores
40000, reconnects with timeout 40000, and the client reads 40000
back. -/
theorem C5_time_out_round_trip_witness :
    (IbmV7k.time_out_get
      (IbmV7k.time_out_set { connectOk := fun _ _ => true }
        { ssh := some { hostname := "h", login := "u", passwd := none,
                        conn_timeout := 30000 },
          tmo := 30000, password := none, up_host := "h",
          up_username := "u" } 40000).1 = 40000) ∧
    ((Client.time_out_get (v7kServe { connectOk := fun _ _ => true })
        simClient 0
        (Client.time_out_set (v7kServe { connectOk := fun _ _ => true })
          simClient 40000 0
          { ssh := some { hostname := "h", login := "u", passwd := none,
                          conn_timeout := 30000 },
            tmo := 30000, password := none, up_host := "h",
            up_username := "u" }).1).2.2 =
      Except.ok (Value.int 40000)) := by
  have h := C5_time_out_round_trip { connectOk := fun _ _ => true }
    simClient { path := "/var/run/lsm/ipc/sim" }
    { ssh := some { hostname := "h", login := "u", passwd := none,
                    conn_timeout := 30000 },
      tmo := 30000, password := none, up_host := "h", up_username := "u" }
    { hostname := "h", login := "u", passwd := none,
      conn_timeout := 30000 } 40000 0 0 (by decide) rfl rfl rfl
  exact ⟨h.2.1, h.2.2.2.2⟩

/-! ## Job lifecycle

The job table lives on the plugin side of the socket; the simulator
plugin holding it is not under `src/`, so it is modelled from the
spec (section 4.3) and the claims are settled against that model
through the client stubs. -/

/-- Modelled from the spec: the state of a job in the section 4.3 state
machine — IN_PROGRESS with a percent-complete, or terminal COMPLETE
carrying the one result value (None when inherently empty), or
terminal ERROR carrying an error payload instead of a result. -/
inductive JobState where
  | inProgress (percent : Int)
  | complete (result : Value)
  | jobError (payload : Value)

/-- Whether a job state is terminal (COMPLETE or ERROR). -/
def JobState.isTerminal : JobState → Bool
  | JobState.inProgress _ => false
  | _ => true

/-- Modelled from the spec: the `(status, percent, item)` triple
`job_status` returns, with the IN_PROGRESS, COMPLETE, ERROR status
numbers 1, 2, 3 and a full percent on terminal states. -/
def encodeJobStatus : JobState → Value
  | JobState.inProgress pc => Value.list [Value.int 1, Value.int pc,
      Value.null]
  | JobState.complete r => Value.list [Value.int 2, Value.int 100, r]
  | JobState.jobError payload => Value.list [Value.int 3, Value.int 100,
      payload]

/-- Modelled from the spec: the plugin-side job table keyed by the
string job id. -/
def JobTable : Type := String → Option JobState

/-- Modelled from the spec: the plugin serves `job_status` as a pure
lookup — an unknown id is a NOT_FOUND-class error, never a no-op —
and `job_free` as removal of the entry, erroring on an unknown id, so
a job is reaped by exactly one free call (section 4.3). -/
def jobWire : StWire JobTable :=
  { resp := fun m args t =>
      if m = "job_status" then
        match List.lookup "job_id" args with
        | some (Value.str jid) =>
          match t jid with
          | none => (t, Except.error
              { errno := ErrorNumber.NOT_FOUND_JOB, msg := "Job not found" })
          | some st => (t, Except.ok (encodeJobStatus st))
        | _ => (t, Except.error { errno := ErrorNumber.PLUGIN_ERROR,
                                  msg := "bad arguments" })
      else if m = "job_free" then
        match List.lookup "job_id" args with
        | some (Value.str jid) =>
          match t jid with
          | none => (t, Except.error
              { errno := ErrorNumber.NOT_FOUND_JOB, msg := "Job not found" })
          | some _ => ((fun j => if j = jid then none else t j),
              Except.ok Value.null)
        | _ => (t, Except.error { errno := ErrorNumber.PLUGIN_ERROR,
                                  msg := "bad arguments" })
      else
        (t, Except.error { errno := ErrorNumber.NOT_IMPLEMENTED,
                           msg := "API not implemented at this time" }) }

/-- C6: job_status on a never-issued job id fails with the
NOT_FOUND-class error rather than returning a value; job_free on a
terminal job id succeeds once, after which job_status on that id fails
and a second job_free on the same id fails too. -/
theorem C6_job_errors (c : Client) (tp : TransPort) (t : JobTable)
    (idA idB : String) (stB : JobState) (fl : Int)
    (hopen : c.tp = some tp) :
    (t idA = none →
      (Client.job_status jobWire c idA fl t).2.2 =
        Except.error (PyExc.lsmError
          { errno := ErrorNumber.NOT_FOUND_JOB, msg := "Job not found" })) ∧
    (t idB = some stB → JobState.isTerminal stB = true →
      ((Client.job_free jobWire c idB fl t).2.2 = Except.ok Value.null) ∧
      ((Client.job_status jobWire c idB fl
          (Client.job_free jobWire c idB fl t).1).2.2 =
        Except.error (PyExc.lsmError
          { errno := ErrorNumber.NOT_FOUND_JOB, msg := "Job not found" })) ∧
      ((Client.job_free jobWire c idB fl
          (Client.job_free jobWire c idB fl t).1).2.2 =
        Except.error (PyExc.lsmError
          { errno := ErrorNumber.NOT_FOUND_JOB, msg := "Job not found" }))) := by
  constructor
  · intro hnone
    have hresp : jobWire.resp "job_status"
        [("job_id", Value.str idA), ("flags", Value.int fl)] t =
        (t, Except.error { errno := ErrorNumber.NOT_FOUND_JOB,
                           msg := "Job not found" }) := by
      simp [jobWire, List.lookup, hnone]
    cases c with
    | mk pp ctp =>
      cases hopen
      simp [Client.job_status, Client.rpcCall, hresp]
  · intro hin _hterm
    have hfree : jobWire.resp "job_free"
        [("job_id", Value.str idB), ("flags", Value.int fl)] t =
        ((fun j => if j = idB then none else t j),
         Except.ok Value.null) := by
      simp [jobWire, List.lookup, hin]
    have hcallfree : Client.job_free jobWire c idB fl t =
        ((fun j => if j = idB then none else t j),
         [Event.rpcSent "job_free"
           [("job_id", Value.str idB), ("flags", Value.int fl)]],
         Except.ok Value.null) :=
      rpcCall_ok jobWire c tp "job_free" _ t _ _ hopen hfree
    have hgone : (fun j => if j = idB then none else t j) idB =
        (none : Option JobState) := by simp
    refine ⟨by rw [hcallfree], ?_, ?_⟩
    · rw [hcallfree]
      have hresp2 : jobWire.resp "job_status"
          [("job_id", Value.str idB), ("flags", Value.int fl)]
          (fun j => if j = idB then none else t j) =
          ((fun j => if j = idB then none else t j),
           Except.error { errno := ErrorNumber.NOT_FOUND_JOB,
                          msg := "Job not found" }) := by
        simp [jobWire, List.lookup]
      cases c with
      | mk pp ctp =>
        cases hopen
        simp [Client.job_status, Client.rpcCall, hresp2]
    · rw [hcallfree]
      have hresp3 : jobWire.resp "job_free"
          [("job_id", Value.str idB), ("flags", Value.int fl)]
          (fun j => if j = idB then none else t j) =
          ((fun j => if j = idB then none else t j),
           Except.error { errno := ErrorNumber.NOT_FOUND_JOB,
                          msg := "Job not found" }) := by
        simp [jobWire, List.lookup]
      cases c with
      | mk pp ctp =>
        cases hopen
        simp [Client.job_free, Client.rpcCall, hresp3]

/-- A concrete job table holding one completed job. -/
def oneJobTable : JobTable :=
  fun j => if j = "JOB_1"
    then some (JobState.complete (Value.obj "Volume" [("id", "v1")]))
    else none

/-- Witness for C6: on a table holding only the completed JOB_1, an
unknown id fails, freeing JOB_1 succeeds, and both job_status and a
second job_free on JOB_1 then fail. -/
theorem C6_job_errors_witness :
    ((Client.job_status jobWire simClient "nope" 0 oneJobTable).2.2 =
      Except.error (PyExc.lsmError
        { errno := ErrorNumber.NOT_FOUND_JOB, msg := "Job not found" })) ∧
    ((Client.job_free jobWire simClient "JOB_1" 0 oneJobTable).2.2 =
      Except.ok Value.null) ∧
    ((Client.job_status jobWire simClient "JOB_1" 0
        (Client.job_free jobWire simClient "JOB_1" 0 oneJobTable).1).2.2 =
      Except.error (PyExc.lsmError
        { errno := ErrorNumber.NOT_FOUND_JOB, msg := "Job not found" })) ∧
    ((Client.job_free jobWire simClient "JOB_1" 0
        (Client.job_free jobWire simClient "JOB_1" 0 oneJobTable).1).2.2 =
      Except.error (PyExc.lsmError
        { errno := ErrorNumber.NOT_FOUND_JOB, msg := "Job not found" })) := by
  have h := C6_job_errors simClient { path := "/var/run/lsm/ipc/sim" }
    oneJobTable "nope" "JOB_1"
    (JobState.complete (Value.obj "Volume" [("id", "v1")])) 0 rfl
  have h2 := h.2 rfl rfl
  exact ⟨h.1 rfl, h2.1, h2.2.1, h2.2.2⟩

/-- C7: job_status on a terminal, unfreed job id is a pure query — the
job table is unchanged and every repeated call returns the identical
(status, percent, result) triple. -/
theorem C7_job_status_idempotent (c : Client) (tp : TransPort)
    (t : JobTable) (jid : String) (st : JobState) (fl : Int)
    (hopen : c.tp = some tp) (hin : t jid = some st)
    (hterm : JobState.isTerminal st = true) :
    (Client.job_status jobWire c jid fl t =
      (t, [Event.rpcSent "job_status"
            [("job_id", Value.str jid), ("flags", Value.int fl)]],
       Except.ok (encodeJobStatus st))) ∧
    ((Client.job_status jobWire c jid fl
        (Client.job_status jobWire c jid fl t).1).2.2 =
      Except.ok (encodeJobStatus st)) := by
  have hresp : jobWire.resp "job_status"
      [("job_id", Value.str jid), ("flags", Value.int fl)] t =
      (t, Except.ok (encodeJobStatus st)) := by
    simp [jobWire, List.lookup, hin]
  have hcall : Client.job_status jobWire c jid fl t =
      (t, [Event.rpcSent "job_status"
            [("job_id", Value.str jid), ("flags", Value.int fl)]],
       Except.ok (encodeJobStatus st)) :=
    rpcCall_ok jobWire c tp "job_status" _ t _ _ hopen hresp
  refine ⟨hcall, ?_⟩
  rw [hcall]
  have hcall2 := rpcCall_ok jobWire c tp "job_status"
    [("job_id", Value.str jid), ("flags", Value.int fl)] t _ _ hopen hresp
  simp [Client.job_status, hcall2]

/-- Witness for C7: querying the completed JOB_1 twice returns the
identical triple both times and leaves the table as it was. -/
theorem C7_job_status_idempotent_witness :
    (Client.job_status jobWire simClient "JOB_1" 0 oneJobTable =
      (oneJobTable,
       [Event.rpcSent "job_status"
         [("job_id", Value.str "JOB_1"), ("flags", Value.int 0)]],
       Except.ok (encodeJobStatus
         (JobState.complete (Value.obj "Volume" [("id", "v1")]))))) ∧
    ((Client.job_status jobWire simClient "JOB_1" 0
        (Client.job_status jobWire simClient "JOB_1" 0 oneJobTable).1).2.2 =
      Except.ok (encodeJobStatus
        (JobState.complete (Value.obj "Volume" [("id", "v1")])))) := by
  have h := C7_job_status_idempotent simClient
    { path := "/var/run/lsm/ipc/sim" } oneJobTable "JOB_1"
    (JobState.complete (Value.obj "Volume" [("id", "v1")])) 0 rfl rfl rfl
  exact ⟨h.1, h.2⟩

end Lsm
